import Mathlib

/-!
Shallow embedding of `custom_components/ics2000/light.py` (ICS-2000 /
KlikAanKlikUit Home Assistant light platform) and proofs about its
command-dispatch logic: the `repeat` retry primitive, the thread-name
based per-device concurrency guard, and the `turn_on` / `turn_off`
dispatch of the standard and Zigbee device classes.

Modelling conventions:
* Threads are pure data: spawning a worker is modelled by returning the
  `KlikAanKlikUitThread` records that `turn_on` / `turn_off` would start,
  together with the updated entity state.  The set of currently live
  threads (`threading.enumerate()` in the source) is passed in as the
  list of their names.
* `repeat` is modelled by the trace of events it performs: one `invoke`
  per loop iteration and one `sleep` after each invocation
  (`time.sleep(sleep if i != tries - 1 else 0)`, so the final sleep has
  duration 0).
* Python integers are `Nat` (brightness and colour temperature are
  non-negative), optional keyword arguments are `Option Nat`, and the
  tri-state `self._state` (`None` / `False` / `True`) is `Option Bool`.
* `math.ceil(b / 17)` on a natural number `b` equals `(b + 17 - 1) / 17`
  in natural division (`ceil_div b 17` below); for `0 ≤ b ≤ 255` the
  float division in the source is exact enough that `math.ceil` agrees
  with the rational ceiling.
-/

/-- The `KlikAanKlikUitAction` enum: the four action classes. -/
inductive KlikAanKlikUitAction where
  | TURN_ON : KlikAanKlikUitAction
  | TURN_OFF : KlikAanKlikUitAction
  | DIM : KlikAanKlikUitAction
  | CHANGE_TEMEPRATURE : KlikAanKlikUitAction
deriving DecidableEq

/-- The string value of each enum member (`KlikAanKlikUitAction(Enum)`). -/
def KlikAanKlikUitAction.value : KlikAanKlikUitAction → String
  | KlikAanKlikUitAction.TURN_ON => "on"
  | KlikAanKlikUitAction.TURN_OFF => "off"
  | KlikAanKlikUitAction.DIM => "dim"
  | KlikAanKlikUitAction.CHANGE_TEMEPRATURE => "change_temperature"

/-- Thread name built by `KlikAanKlikUitThread.__init__`:
`f'kaku{action.value}{device_id}'`. -/
def kakuThreadName (action : KlikAanKlikUitAction) (device_id : Nat) : String :=
  "kaku" ++ action.value ++ toString device_id

/-- The hub-client operations a worker can be asked to run
(`self._hub.turn_on`, `.dim`, ..., passed as `callable_function`). -/
inductive HubFunction where
  | turn_on : HubFunction
  | turn_off : HubFunction
  | dim : HubFunction
  | zigbee_on : HubFunction
  | zigbee_off : HubFunction
  | zigbee_dim : HubFunction
  | zigbee_color_temp : HubFunction
deriving DecidableEq

/-- A worker thread as constructed by `KlikAanKlikUitThread(action=...,
device_id=..., target=repeat, kwargs=...)`: the action class, the device
id, and the keyword arguments handed to `repeat` (`tries`, `sleep`,
`callable_function`, `entity`, and the optional `level` / `color_temp`). -/
structure KlikAanKlikUitThread where
  action : KlikAanKlikUitAction
  device_id : Nat
  tries : Nat
  sleep : Nat
  callable_function : HubFunction
  entity : Nat
  level : Option Nat
  color_temp : Option Nat
deriving DecidableEq

/-- The name the spawned thread gets (`name=f'kaku{action.value}{device_id}'`). -/
def KlikAanKlikUitThread.name (t : KlikAanKlikUitThread) : String :=
  kakuThreadName t.action t.device_id

/-- `KlikAanKlikUitThread.has_running_threads(device_id)`: scans the names
of all live threads (`threading.enumerate()`, passed here as `live`) and
returns true when one of them matches the turn-on, dim or turn-off name
for this device. -/
def KlikAanKlikUitThread.has_running_threads (live : List String) (device_id : Nat) : Bool :=
  live.any fun n =>
    n == kakuThreadName KlikAanKlikUitAction.TURN_ON device_id ||
    n == kakuThreadName KlikAanKlikUitAction.DIM device_id ||
    n == kakuThreadName KlikAanKlikUitAction.TURN_OFF device_id

/-- One observable step of the `repeat` loop: an invocation of the
callable, or a `time.sleep` of the given whole number of seconds. -/
inductive RepeatEvent where
  | invoke (fn : HubFunction) : RepeatEvent
  | sleep (seconds : Nat) : RepeatEvent
deriving DecidableEq

/-- The `repeat(tries, sleep, callable_function, **kwargs)` helper, as the
trace of events of its loop `for i in range(0, tries)`: each iteration
invokes the callable and then sleeps `sleep if i != tries - 1 else 0`
seconds. -/
def «repeat» (tries sleep : Nat) (callable_function : HubFunction) : List RepeatEvent :=
  (List.range tries).flatMap fun i =>
    [RepeatEvent.invoke callable_function,
     RepeatEvent.sleep (if i ≠ tries - 1 then sleep else 0)]

/-- Number of invocations of the callable in a `repeat` trace. -/
def invokeCount : List RepeatEvent → Nat
  | [] => 0
  | RepeatEvent.invoke _ :: rest => invokeCount rest + 1
  | RepeatEvent.sleep _ :: rest => invokeCount rest

/-- Total number of seconds slept in a `repeat` trace. -/
def sleptTotal : List RepeatEvent → Nat
  | [] => 0
  | RepeatEvent.invoke _ :: rest => sleptTotal rest
  | RepeatEvent.sleep s :: rest => s + sleptTotal rest

/-- Natural-number ceiling division: `ceil_div a b = ⌈a / b⌉`, the value
`math.ceil(a / b)` computes on the non-negative integers in the source. -/
def ceil_div (a b : Nat) : Nat := (a + b - 1) / b

/-- Entity state of `KlikAanKlikUitDevice` (standard / dimmable device):
the retry settings and the cached fields `self._state` (tri-state) and
`self._brightness`.  `_name` and the hub reference play no role in
dispatch and are omitted. -/
structure KlikAanKlikUitDevice where
  tries : Nat
  sleep : Nat
  _id : Nat
  _state : Option Bool
  _brightness : Option Nat
deriving DecidableEq

/-- The `is_on` property of the standard device. -/
def KlikAanKlikUitDevice.is_on (d : KlikAanKlikUitDevice) : Option Bool := d._state

/-- `KlikAanKlikUitDevice.turn_on(**kwargs)`.  `live` is the list of names
of currently live threads; `brightness` is `kwargs.get(ATTR_BRIGHTNESS)`.
Returns the updated entity state and the list of workers spawned. -/
def KlikAanKlikUitDevice.turn_on (d : KlikAanKlikUitDevice) (live : List String)
    (brightness : Option Nat) : KlikAanKlikUitDevice × List KlikAanKlikUitThread :=
  if KlikAanKlikUitThread.has_running_threads live d._id then (d, [])
  else
    -- self._brightness = kwargs.get(ATTR_BRIGHTNESS, 255)
    let b := brightness.getD 255
    let d1 : KlikAanKlikUitDevice := { d with _brightness := some b }
    -- if self.is_on is None or not self.is_on: spawn TURN_ON else spawn DIM
    if d1.is_on = none ∨ d1.is_on = some false then
      ({ d1 with _state := some true },
       [{ action := KlikAanKlikUitAction.TURN_ON, device_id := d._id,
          tries := d.tries, sleep := d.sleep,
          callable_function := HubFunction.turn_on, entity := d._id,
          level := none, color_temp := none }])
    else
      ({ d1 with _state := some true },
       [{ action := KlikAanKlikUitAction.DIM, device_id := d._id,
          tries := d.tries, sleep := d.sleep,
          callable_function := HubFunction.dim, entity := d._id,
          level := some (ceil_div b 17), color_temp := none }])

/-- `KlikAanKlikUitDevice.turn_off(**kwargs)`. -/
def KlikAanKlikUitDevice.turn_off (d : KlikAanKlikUitDevice) (live : List String) :
    KlikAanKlikUitDevice × List KlikAanKlikUitThread :=
  if KlikAanKlikUitThread.has_running_threads live d._id then (d, [])
  else
    ({ d with _state := some false },
     [{ action := KlikAanKlikUitAction.TURN_OFF, device_id := d._id,
        tries := d.tries, sleep := d.sleep,
        callable_function := HubFunction.turn_off, entity := d._id,
        level := none, color_temp := none }])

/-- Entity state of `KlikAanKlikUitZigbeeDevice`: cached `self._state`,
`self._brightness` and `self._color_temp`.  Its retry settings are fixed
at `tries=1, sleep=1` in every spawn. -/
structure KlikAanKlikUitZigbeeDevice where
  _id : Nat
  _state : Option Bool
  _brightness : Option Nat
  _color_temp : Option Nat
deriving DecidableEq

/-- The `is_on` property of the Zigbee device. -/
def KlikAanKlikUitZigbeeDevice.is_on (d : KlikAanKlikUitZigbeeDevice) : Option Bool := d._state

/-- `KlikAanKlikUitZigbeeDevice.turn_on(**kwargs)` with
`brightness = kwargs.get(ATTR_BRIGHTNESS, None)` and
`color_temp = kwargs.get(ATTR_COLOR_TEMP, None)`. -/
def KlikAanKlikUitZigbeeDevice.turn_on (d : KlikAanKlikUitZigbeeDevice) (live : List String)
    (brightness color_temp : Option Nat) :
    KlikAanKlikUitZigbeeDevice × List KlikAanKlikUitThread :=
  if KlikAanKlikUitThread.has_running_threads live d._id then (d, [])
  else
    let d1 : KlikAanKlikUitZigbeeDevice :=
      { d with _brightness := brightness, _color_temp := color_temp }
    let dimWorkers : List KlikAanKlikUitThread :=
      match d1._brightness with
      | some b =>
          [{ action := KlikAanKlikUitAction.DIM, device_id := d._id,
             tries := 1, sleep := 1,
             callable_function := HubFunction.zigbee_dim, entity := d._id,
             level := some b, color_temp := none }]
      | none => []
    let tempWorkers : List KlikAanKlikUitThread :=
      match d1._color_temp with
      | some ct =>
          [{ action := KlikAanKlikUitAction.CHANGE_TEMEPRATURE, device_id := d._id,
             tries := 1, sleep := 1,
             callable_function := HubFunction.zigbee_color_temp, entity := d._id,
             level := none, color_temp := some ct }]
      | none => []
    if d1.is_on = none ∨ d1.is_on = some false then
      ({ d1 with _state := some true },
       { action := KlikAanKlikUitAction.TURN_ON, device_id := d._id,
         tries := 1, sleep := 1,
         callable_function := HubFunction.zigbee_on, entity := d._id,
         level := none, color_temp := none } :: (dimWorkers ++ tempWorkers))
    else
      ({ d1 with _state := some true }, dimWorkers ++ tempWorkers)

/-- `KlikAanKlikUitZigbeeDevice.turn_off(**kwargs)`. -/
def KlikAanKlikUitZigbeeDevice.turn_off (d : KlikAanKlikUitZigbeeDevice) (live : List String) :
    KlikAanKlikUitZigbeeDevice × List KlikAanKlikUitThread :=
  if KlikAanKlikUitThread.has_running_threads live d._id then (d, [])
  else
    ({ d with _state := some false },
     [{ action := KlikAanKlikUitAction.TURN_OFF, device_id := d._id,
        tries := 1, sleep := 1,
        callable_function := HubFunction.zigbee_off, entity := d._id,
        level := none, color_temp := none }])

/-! ### Helper lemmas -/

/-- Counting invocations distributes over trace concatenation. -/
theorem invokeCount_append (a b : List RepeatEvent) :
    invokeCount (a ++ b) = invokeCount a + invokeCount b := by
  induction a with
  | nil => simp [invokeCount]
  | cons e rest ih =>
      cases e <;> simp [invokeCount, ih]
      omega

/-- Total sleep distributes over trace concatenation. -/
theorem sleptTotal_append (a b : List RepeatEvent) :
    sleptTotal (a ++ b) = sleptTotal a + sleptTotal b := by
  induction a with
  | nil => simp [sleptTotal]
  | cons e rest ih =>
      cases e <;> simp [sleptTotal, ih]
      omega

/-- A trace made of one invocation and one sleep per element of `l` has
exactly `l.length` invocations. -/
theorem invokeCount_flatMap (l : List Nat) (g : Nat → Nat) (fn : HubFunction) :
    invokeCount (l.flatMap fun i =>
      [RepeatEvent.invoke fn, RepeatEvent.sleep (g i)]) = l.length := by
  induction l with
  | nil => rfl
  | cons a rest ih =>
      rw [List.flatMap_cons, invokeCount_append, ih]
      simp [invokeCount]
      omega

/-- A trace made of one invocation and one sleep per element of `l`
sleeps the sum of the per-element durations. -/
theorem sleptTotal_flatMap (l : List Nat) (g : Nat → Nat) (fn : HubFunction) :
    sleptTotal (l.flatMap fun i =>
      [RepeatEvent.invoke fn, RepeatEvent.sleep (g i)]) = (l.map g).sum := by
  induction l with
  | nil => rfl
  | cons a rest ih =>
      rw [List.flatMap_cons, sleptTotal_append, ih]
      simp [sleptTotal]

/-- Summing `if i ≠ k then S else 0` over a list avoiding `k` gives
`length * S`. -/
theorem sum_map_ite_of_ne (l : List Nat) (k S : Nat) (h : ∀ i ∈ l, i ≠ k) :
    (l.map fun i => if i ≠ k then S else 0).sum = l.length * S := by
  induction l with
  | nil => simp
  | cons a rest ih =>
      have ha : a ≠ k := h a (by simp)
      rw [List.map_cons, List.sum_cons, if_pos ha,
        ih fun i hi => h i (List.mem_cons_of_mem a hi), List.length_cons]
      ring

/-- The guard fires exactly when a live thread bears one of the three
checked names. -/
theorem has_running_threads_iff (live : List String) (id : Nat) :
    KlikAanKlikUitThread.has_running_threads live id = true ↔
      (kakuThreadName KlikAanKlikUitAction.TURN_ON id ∈ live ∨
       kakuThreadName KlikAanKlikUitAction.DIM id ∈ live ∨
       kakuThreadName KlikAanKlikUitAction.TURN_OFF id ∈ live) := by
  simp only [KlikAanKlikUitThread.has_running_threads, List.any_eq_true,
    Bool.or_eq_true, beq_iff_eq]
  constructor
  · rintro ⟨x, hx, (rfl | rfl) | rfl⟩
    · exact Or.inl hx
    · exact Or.inr (Or.inl hx)
    · exact Or.inr (Or.inr hx)
  · rintro (h | h | h)
    · exact ⟨_, h, Or.inl (Or.inl rfl)⟩
    · exact ⟨_, h, Or.inl (Or.inr rfl)⟩
    · exact ⟨_, h, Or.inr rfl⟩

/-- A name built on any other action class never equals a
`change_temperature` thread name, whatever the two device ids. -/
theorem kakuThreadName_ne_ct (a : KlikAanKlikUitAction) (i j : Nat)
    (h : a ≠ KlikAanKlikUitAction.CHANGE_TEMEPRATURE) :
    kakuThreadName a i ≠ kakuThreadName KlikAanKlikUitAction.CHANGE_TEMEPRATURE j := by
  cases a with
  | CHANGE_TEMEPRATURE => exact absurd rfl h
  | TURN_ON =>
      intro he
      have hd := congrArg String.data he
      simp [kakuThreadName, KlikAanKlikUitAction.value, String.data_append] at hd
  | TURN_OFF =>
      intro he
      have hd := congrArg String.data he
      simp [kakuThreadName, KlikAanKlikUitAction.value, String.data_append] at hd
  | DIM =>
      intro he
      have hd := congrArg String.data he
      simp [kakuThreadName, KlikAanKlikUitAction.value, String.data_append] at hd

/-! ### Claim theorems -/

/-- C2: for every `tries` N ≥ 1 and `sleepSeconds` S ≥ 0, `repeat`
invokes the callable exactly N times and the total slept delay equals
`(N - 1) * S` (sleeping S between consecutive attempts and nothing —
a sleep of duration 0 — after the final attempt). -/
theorem repeat_invocations_and_total_sleep (N S : Nat) (fn : HubFunction)
    (h : 1 ≤ N) :
    invokeCount («repeat» N S fn) = N ∧
    sleptTotal («repeat» N S fn) = (N - 1) * S := by
  obtain ⟨M, rfl⟩ : ∃ M, N = M + 1 := ⟨N - 1, by omega⟩
  constructor
  · rw [«repeat», invokeCount_flatMap, List.length_range]
  · rw [«repeat», sleptTotal_flatMap]
    have hk : M + 1 - 1 = M := by omega
    rw [hk, List.range_succ, List.map_append, List.sum_append,
      sum_map_ite_of_ne _ M S fun i hi => Nat.ne_of_lt (List.mem_range.mp hi),
      List.length_range]
    simp

/-- Witness for C2 at N = 3, S = 3. -/
theorem repeat_invocations_and_total_sleep_witness :
    1 ≤ 3 ∧
    (invokeCount («repeat» 3 3 HubFunction.turn_on) = 3 ∧
     sleptTotal («repeat» 3 3 HubFunction.turn_on) = (3 - 1) * 3) :=
  ⟨by decide, repeat_invocations_and_total_sleep 3 3 HubFunction.turn_on (by decide)⟩

/-- C8: `has_running_threads(deviceId)` returns true iff some live
thread bears the turn-on, dim or turn-off name for that device, and a
live `change_temperature` thread — for any device — never makes it
return true. -/
theorem has_running_threads_checks_only_on_dim_off :
    (∀ (live : List String) (id : Nat),
        KlikAanKlikUitThread.has_running_threads live id = true ↔
          (kakuThreadName KlikAanKlikUitAction.TURN_ON id ∈ live ∨
           kakuThreadName KlikAanKlikUitAction.DIM id ∈ live ∨
           kakuThreadName KlikAanKlikUitAction.TURN_OFF id ∈ live)) ∧
    (∀ (id idct : Nat),
        KlikAanKlikUitThread.has_running_threads
          [kakuThreadName KlikAanKlikUitAction.CHANGE_TEMEPRATURE idct] id = false) := by
  refine ⟨has_running_threads_iff, fun id idct => ?_⟩
  rw [Bool.eq_false_iff, Ne, has_running_threads_iff]
  simp only [List.mem_singleton]
  rintro (h | h | h)
  · exact kakuThreadName_ne_ct KlikAanKlikUitAction.TURN_ON id idct (by decide) h
  · exact kakuThreadName_ne_ct KlikAanKlikUitAction.DIM id idct (by decide) h
  · exact kakuThreadName_ne_ct KlikAanKlikUitAction.TURN_OFF id idct (by decide) h

/-- C1: a busy device — a live thread whose name is the turn-on, dim or
turn-off name of the device — makes `turn_on` and `turn_off` drop the
request for both device classes: no worker is spawned and every cached
field is unchanged. -/
theorem busy_device_drops_request
    (d : KlikAanKlikUitDevice) (z : KlikAanKlikUitZigbeeDevice)
    (live livez : List String) (b bz ct : Option Nat)
    (hd : kakuThreadName KlikAanKlikUitAction.TURN_ON d._id ∈ live ∨
          kakuThreadName KlikAanKlikUitAction.DIM d._id ∈ live ∨
          kakuThreadName KlikAanKlikUitAction.TURN_OFF d._id ∈ live)
    (hz : kakuThreadName KlikAanKlikUitAction.TURN_ON z._id ∈ livez ∨
          kakuThreadName KlikAanKlikUitAction.DIM z._id ∈ livez ∨
          kakuThreadName KlikAanKlikUitAction.TURN_OFF z._id ∈ livez) :
    d.turn_on live b = (d, []) ∧ d.turn_off live = (d, []) ∧
    z.turn_on livez bz ct = (z, []) ∧ z.turn_off livez = (z, []) := by
  have h1 : KlikAanKlikUitThread.has_running_threads live d._id = true :=
    (has_running_threads_iff live d._id).mpr hd
  have h2 : KlikAanKlikUitThread.has_running_threads livez z._id = true :=
    (has_running_threads_iff livez z._id).mpr hz
  refine ⟨?_, ?_, ?_, ?_⟩ <;>
    simp [KlikAanKlikUitDevice.turn_on, KlikAanKlikUitDevice.turn_off,
      KlikAanKlikUitZigbeeDevice.turn_on, KlikAanKlikUitZigbeeDevice.turn_off, h1, h2]

/-- Witness for C1: a dim thread for device 7 and a turn-off thread for
Zigbee device 9 are live; both requests are dropped. -/
theorem busy_device_drops_request_witness :
    (kakuThreadName KlikAanKlikUitAction.TURN_ON 7 ∈ [kakuThreadName KlikAanKlikUitAction.DIM 7] ∨
     kakuThreadName KlikAanKlikUitAction.DIM 7 ∈ [kakuThreadName KlikAanKlikUitAction.DIM 7] ∨
     kakuThreadName KlikAanKlikUitAction.TURN_OFF 7 ∈ [kakuThreadName KlikAanKlikUitAction.DIM 7]) ∧
    (kakuThreadName KlikAanKlikUitAction.TURN_ON 9 ∈ [kakuThreadName KlikAanKlikUitAction.TURN_OFF 9] ∨
     kakuThreadName KlikAanKlikUitAction.DIM 9 ∈ [kakuThreadName KlikAanKlikUitAction.TURN_OFF 9] ∨
     kakuThreadName KlikAanKlikUitAction.TURN_OFF 9 ∈ [kakuThreadName KlikAanKlikUitAction.TURN_OFF 9]) ∧
    (KlikAanKlikUitDevice.turn_on ⟨3, 3, 7, some true, some 10⟩
        [kakuThreadName KlikAanKlikUitAction.DIM 7] (some 85) =
      (⟨3, 3, 7, some true, some 10⟩, []) ∧
     KlikAanKlikUitDevice.turn_off ⟨3, 3, 7, some true, some 10⟩
        [kakuThreadName KlikAanKlikUitAction.DIM 7] =
      (⟨3, 3, 7, some true, some 10⟩, []) ∧
     KlikAanKlikUitZigbeeDevice.turn_on ⟨9, none, none, none⟩
        [kakuThreadName KlikAanKlikUitAction.TURN_OFF 9] (some 100) (some 300) =
      (⟨9, none, none, none⟩, []) ∧
     KlikAanKlikUitZigbeeDevice.turn_off ⟨9, none, none, none⟩
        [kakuThreadName KlikAanKlikUitAction.TURN_OFF 9] =
      (⟨9, none, none, none⟩, [])) :=
  ⟨by decide, by decide,
   busy_device_drops_request ⟨3, 3, 7, some true, some 10⟩ ⟨9, none, none, none⟩
     [kakuThreadName KlikAanKlikUitAction.DIM 7]
     [kakuThreadName KlikAanKlikUitAction.TURN_OFF 9]
     (some 85) (some 100) (some 300) (by decide) (by decide)⟩

/-- C3: a standard/dimmable device that is not busy spawns exactly one
worker on `turn_on`: a turn-on worker when cached `is_on` is unknown or
false (even when a brightness was supplied — no dim worker in the same
call), and a dim worker with level `ceil(brightness / 17)` when cached
`is_on` is true. -/
theorem standard_turn_on_spawns_single_worker
    (d : KlikAanKlikUitDevice) (live : List String)
    (h : KlikAanKlikUitThread.has_running_threads live d._id = false) :
    (∀ brightness : Option Nat,
        d._state = none ∨ d._state = some false →
        (d.turn_on live brightness).2 =
          [{ action := KlikAanKlikUitAction.TURN_ON, device_id := d._id,
             tries := d.tries, sleep := d.sleep,
             callable_function := HubFunction.turn_on, entity := d._id,
             level := none, color_temp := none }]) ∧
    (∀ b : Nat,
        d._state = some true →
        (d.turn_on live (some b)).2 =
          [{ action := KlikAanKlikUitAction.DIM, device_id := d._id,
             tries := d.tries, sleep := d.sleep,
             callable_function := HubFunction.dim, entity := d._id,
             level := some (ceil_div b 17), color_temp := none }]) := by
  constructor
  · intro brightness hs
    rcases hs with hs | hs <;>
      simp [KlikAanKlikUitDevice.turn_on, KlikAanKlikUitDevice.is_on, h, hs]
  · intro b hs
    simp [KlikAanKlikUitDevice.turn_on, KlikAanKlikUitDevice.is_on, h, hs]

/-- Witness for C3: device 7, no live threads, brightness 85 supplied in
both cached states. -/
theorem standard_turn_on_spawns_single_worker_witness :
    KlikAanKlikUitThread.has_running_threads [] 7 = false ∧
    (some false = none ∨ (some false : Option Bool) = some false) ∧
    (KlikAanKlikUitDevice.turn_on ⟨3, 3, 7, some false, none⟩ [] (some 85)).2 =
      [{ action := KlikAanKlikUitAction.TURN_ON, device_id := 7,
         tries := 3, sleep := 3,
         callable_function := HubFunction.turn_on, entity := 7,
         level := none, color_temp := none }] ∧
    (KlikAanKlikUitDevice.turn_on ⟨3, 3, 7, some true, none⟩ [] (some 85)).2 =
      [{ action := KlikAanKlikUitAction.DIM, device_id := 7,
         tries := 3, sleep := 3,
         callable_function := HubFunction.dim, entity := 7,
         level := some (ceil_div 85 17), color_temp := none }] :=
  ⟨by decide, Or.inr rfl,
   (standard_turn_on_spawns_single_worker ⟨3, 3, 7, some false, none⟩ [] (by decide)).1
     (some 85) (Or.inr rfl),
   (standard_turn_on_spawns_single_worker ⟨3, 3, 7, some true, none⟩ [] (by decide)).2
     85 rfl⟩

/-- C4: a Zigbee device that is not busy, with cached `is_on` unknown or
false, spawns exactly three workers on `turn_on(brightness, color_temp)`
— zigbee-on, zigbee-dim with the raw supplied brightness as level, and
zigbee-colour-temperature with the supplied value — each with a single
attempt (`tries = 1`). -/
theorem zigbee_turn_on_from_off_spawns_three_workers
    (z : KlikAanKlikUitZigbeeDevice) (live : List String) (b ct : Nat)
    (h : KlikAanKlikUitThread.has_running_threads live z._id = false)
    (hs : z._state = none ∨ z._state = some false) :
    (z.turn_on live (some b) (some ct)).2 =
      [{ action := KlikAanKlikUitAction.TURN_ON, device_id := z._id,
         tries := 1, sleep := 1,
         callable_function := HubFunction.zigbee_on, entity := z._id,
         level := none, color_temp := none },
       { action := KlikAanKlikUitAction.DIM, device_id := z._id,
         tries := 1, sleep := 1,
         callable_function := HubFunction.zigbee_dim, entity := z._id,
         level := some b, color_temp := none },
       { action := KlikAanKlikUitAction.CHANGE_TEMEPRATURE, device_id := z._id,
         tries := 1, sleep := 1,
         callable_function := HubFunction.zigbee_color_temp, entity := z._id,
         level := none, color_temp := some ct }] := by
  rcases hs with hs | hs <;>
    simp [KlikAanKlikUitZigbeeDevice.turn_on, KlikAanKlikUitZigbeeDevice.is_on, h, hs]

/-- Witness for C4: Zigbee device 9 off, brightness 100, colour
temperature 300. -/
theorem zigbee_turn_on_from_off_spawns_three_workers_witness :
    KlikAanKlikUitThread.has_running_threads [] 9 = false ∧
    ((none : Option Bool) = none ∨ (none : Option Bool) = some false) ∧
    (KlikAanKlikUitZigbeeDevice.turn_on ⟨9, none, none, none⟩ [] (some 100) (some 300)).2 =
      [{ action := KlikAanKlikUitAction.TURN_ON, device_id := 9,
         tries := 1, sleep := 1,
         callable_function := HubFunction.zigbee_on, entity := 9,
         level := none, color_temp := none },
       { action := KlikAanKlikUitAction.DIM, device_id := 9,
         tries := 1, sleep := 1,
         callable_function := HubFunction.zigbee_dim, entity := 9,
         level := some 100, color_temp := none },
       { action := KlikAanKlikUitAction.CHANGE_TEMEPRATURE, device_id := 9,
         tries := 1, sleep := 1,
         callable_function := HubFunction.zigbee_color_temp, entity := 9,
         level := none, color_temp := some 300 }] :=
  ⟨by decide, Or.inl rfl,
   zigbee_turn_on_from_off_spawns_three_workers ⟨9, none, none, none⟩ [] 100 300
     (by decide) (Or.inl rfl)⟩

/-- C5: for every device that is not busy, `turn_on` returns with cached
`_state` already `some true` and `turn_off` with `_state` already
`some false`, for both device classes; the spawned workers are pure data
and carry no reference to the entity state, so no worker outcome can
alter the cache. -/
theorem optimistic_state_update_synchronous
    (d : KlikAanKlikUitDevice) (z : KlikAanKlikUitZigbeeDevice)
    (live livez : List String) (b bz ct : Option Nat)
    (h1 : KlikAanKlikUitThread.has_running_threads live d._id = false)
    (h2 : KlikAanKlikUitThread.has_running_threads livez z._id = false) :
    (d.turn_on live b).1._state = some true ∧
    (d.turn_off live).1._state = some false ∧
    (z.turn_on livez bz ct).1._state = some true ∧
    (z.turn_off livez).1._state = some false := by
  refine ⟨?_, ?_, ?_, ?_⟩
  · rw [KlikAanKlikUitDevice.turn_on, if_neg (by simp [h1])]
    dsimp only
    split <;> rfl
  · rw [KlikAanKlikUitDevice.turn_off, if_neg (by simp [h1])]
  · rw [KlikAanKlikUitZigbeeDevice.turn_on, if_neg (by simp [h2])]
    dsimp only
    split <;> rfl
  · rw [KlikAanKlikUitZigbeeDevice.turn_off, if_neg (by simp [h2])]

/-- Witness for C5 at device 7 (standard, brightness 85) and Zigbee
device 9 (brightness 100, colour temperature 300), no live threads. -/
theorem optimistic_state_update_synchronous_witness :
    KlikAanKlikUitThread.has_running_threads [] 7 = false ∧
    KlikAanKlikUitThread.has_running_threads [] 9 = false ∧
    ((KlikAanKlikUitDevice.turn_on ⟨3, 3, 7, none, none⟩ [] (some 85)).1._state = some true ∧
     (KlikAanKlikUitDevice.turn_off ⟨3, 3, 7, none, none⟩ []).1._state = some false ∧
     (KlikAanKlikUitZigbeeDevice.turn_on ⟨9, none, none, none⟩ []
        (some 100) (some 300)).1._state = some true ∧
     (KlikAanKlikUitZigbeeDevice.turn_off ⟨9, none, none, none⟩ []).1._state = some false) :=
  ⟨by decide, by decide,
   optimistic_state_update_synchronous ⟨3, 3, 7, none, none⟩ ⟨9, none, none, none⟩
     [] [] (some 85) (some 100) (some 300) (by decide) (by decide)⟩

/-- C6: the dim-level conversion `ceil(hostBrightness / 17)` used by the
standard device maps 1..255 into the device range 1..15, and maps the
boundary value 0 to 0, outside that range. -/
theorem dim_level_conversion_bounds :
    (∀ b : Nat, 1 ≤ b → b ≤ 255 → 1 ≤ ceil_div b 17 ∧ ceil_div b 17 ≤ 15) ∧
    ceil_div 0 17 = 0 := by
  constructor
  · intro b h1 h2
    unfold ceil_div
    omega
  · rfl

/-- Witness for C6 at hostBrightness 85. -/
theorem dim_level_conversion_bounds_witness :
    1 ≤ 85 ∧ 85 ≤ 255 ∧ (1 ≤ ceil_div 85 17 ∧ ceil_div 85 17 ≤ 15) :=
  ⟨by decide, by decide, dim_level_conversion_bounds.1 85 (by decide) (by decide)⟩

/-- C7: a Zigbee device that is not busy, with cached `is_on` true,
skips the on-command and spawns a dim worker iff brightness is supplied
and a colour-temperature worker iff one is supplied; with only a colour
temperature supplied it spawns exactly that one worker. -/
theorem zigbee_turn_on_when_on_workers_iff_supplied
    (z : KlikAanKlikUitZigbeeDevice) (live : List String) (b ct : Nat)
    (h : KlikAanKlikUitThread.has_running_threads live z._id = false)
    (hs : z._state = some true) :
    (z.turn_on live (some b) (some ct)).2 =
      [{ action := KlikAanKlikUitAction.DIM, device_id := z._id,
         tries := 1, sleep := 1,
         callable_function := HubFunction.zigbee_dim, entity := z._id,
         level := some b, color_temp := none },
       { action := KlikAanKlikUitAction.CHANGE_TEMEPRATURE, device_id := z._id,
         tries := 1, sleep := 1,
         callable_function := HubFunction.zigbee_color_temp, entity := z._id,
         level := none, color_temp := some ct }] ∧
    (z.turn_on live (some b) none).2 =
      [{ action := KlikAanKlikUitAction.DIM, device_id := z._id,
         tries := 1, sleep := 1,
         callable_function := HubFunction.zigbee_dim, entity := z._id,
         level := some b, color_temp := none }] ∧
    (z.turn_on live none (some ct)).2 =
      [{ action := KlikAanKlikUitAction.CHANGE_TEMEPRATURE, device_id := z._id,
         tries := 1, sleep := 1,
         callable_function := HubFunction.zigbee_color_temp, entity := z._id,
         level := none, color_temp := some ct }] ∧
    (z.turn_on live none none).2 = [] := by
  refine ⟨?_, ?_, ?_, ?_⟩ <;>
    simp [KlikAanKlikUitZigbeeDevice.turn_on, KlikAanKlikUitZigbeeDevice.is_on, h, hs]

/-- Witness for C7: Zigbee device 9, cached state on, brightness 100 and
colour temperature 250 in the four supply combinations. -/
theorem zigbee_turn_on_when_on_workers_iff_supplied_witness :
    KlikAanKlikUitThread.has_running_threads [] 9 = false ∧
    (KlikAanKlikUitZigbeeDevice._state ⟨9, some true, none, none⟩ = some true) ∧
    ((KlikAanKlikUitZigbeeDevice.turn_on ⟨9, some true, none, none⟩ []
        (some 100) (some 250)).2 =
      [{ action := KlikAanKlikUitAction.DIM, device_id := 9,
         tries := 1, sleep := 1,
         callable_function := HubFunction.zigbee_dim, entity := 9,
         level := some 100, color_temp := none },
       { action := KlikAanKlikUitAction.CHANGE_TEMEPRATURE, device_id := 9,
         tries := 1, sleep := 1,
         callable_function := HubFunction.zigbee_color_temp, entity := 9,
         level := none, color_temp := some 250 }] ∧
     (KlikAanKlikUitZigbeeDevice.turn_on ⟨9, some true, none, none⟩ []
        (some 100) none).2 =
      [{ action := KlikAanKlikUitAction.DIM, device_id := 9,
         tries := 1, sleep := 1,
         callable_function := HubFunction.zigbee_dim, entity := 9,
         level := some 100, color_temp := none }] ∧
     (KlikAanKlikUitZigbeeDevice.turn_on ⟨9, some true, none, none⟩ []
        none (some 250)).2 =
      [{ action := KlikAanKlikUitAction.CHANGE_TEMEPRATURE, device_id := 9,
         tries := 1, sleep := 1,
         callable_function := HubFunction.zigbee_color_temp, entity := 9,
         level := none, color_temp := some 250 }] ∧
     (KlikAanKlikUitZigbeeDevice.turn_on ⟨9, some true, none, none⟩ [] none none).2 = []) :=
  ⟨by decide, rfl,
   zigbee_turn_on_when_on_workers_iff_supplied ⟨9, some true, none, none⟩ [] 100 250
     (by decide) rfl⟩

/-- C9: a standard/dimmable device that is not busy and receives
`turn_on` with no brightness sets cached `_brightness` to 255 and, when
cached `is_on` was already true, spawns the dim worker with level
`ceil(255 / 17) = 15`. -/
theorem standard_turn_on_default_brightness
    (d : KlikAanKlikUitDevice) (live : List String)
    (h : KlikAanKlikUitThread.has_running_threads live d._id = false) :
    (d.turn_on live none).1._brightness = some 255 ∧
    (d._state = some true →
      (d.turn_on live none).2 =
        [{ action := KlikAanKlikUitAction.DIM, device_id := d._id,
           tries := d.tries, sleep := d.sleep,
           callable_function := HubFunction.dim, entity := d._id,
           level := some 15, color_temp := none }]) := by
  constructor
  · rw [KlikAanKlikUitDevice.turn_on, if_neg (by simp [h])]
    dsimp only
    split <;> rfl
  · intro hs
    have h15 : ceil_div 255 17 = 15 := rfl
    simp [KlikAanKlikUitDevice.turn_on, KlikAanKlikUitDevice.is_on, h, hs, h15]

/-- Witness for C9: device 7 with cached state on, no live threads. -/
theorem standard_turn_on_default_brightness_witness :
    KlikAanKlikUitThread.has_running_threads [] 7 = false ∧
    (KlikAanKlikUitDevice._state ⟨3, 3, 7, some true, some 40⟩ = some true) ∧
    ((KlikAanKlikUitDevice.turn_on ⟨3, 3, 7, some true, some 40⟩ [] none).1._brightness =
        some 255 ∧
     (KlikAanKlikUitDevice.turn_on ⟨3, 3, 7, some true, some 40⟩ [] none).2 =
        [{ action := KlikAanKlikUitAction.DIM, device_id := 7,
           tries := 3, sleep := 3,
           callable_function := HubFunction.dim, entity := 7,
           level := some 15, color_temp := none }]) :=
  ⟨by decide, rfl,
   (standard_turn_on_default_brightness ⟨3, 3, 7, some true, some 40⟩ [] (by decide)).1,
   (standard_turn_on_default_brightness ⟨3, 3, 7, some true, some 40⟩ [] (by decide)).2 rfl⟩

/-- C10: a Zigbee device that is not busy has both cached fields
overwritten by every `turn_on`: `_brightness` and `_color_temp` become
exactly the supplied optional values, so omitting one erases any
previously cached value. -/
theorem zigbee_turn_on_overwrites_cached_fields
    (z : KlikAanKlikUitZigbeeDevice) (live : List String) (b ct : Option Nat)
    (h : KlikAanKlikUitThread.has_running_threads live z._id = false) :
    (z.turn_on live b ct).1._brightness = b ∧
    (z.turn_on live b ct).1._color_temp = ct := by
  constructor <;>
    (rw [KlikAanKlikUitZigbeeDevice.turn_on, if_neg (by simp [h])]
     dsimp only
     split <;> rfl)

/-- Witness for C10: Zigbee device 9 with a previously cached brightness
receives `turn_on` with no brightness and colour temperature 250; the
cached brightness is erased. -/
theorem zigbee_turn_on_overwrites_cached_fields_witness :
    KlikAanKlikUitThread.has_running_threads [] 9 = false ∧
    ((KlikAanKlikUitZigbeeDevice.turn_on ⟨9, some true, some 120, some 300⟩ []
        none (some 250)).1._brightness = none ∧
     (KlikAanKlikUitZigbeeDevice.turn_on ⟨9, some true, some 120, some 300⟩ []
        none (some 250)).1._color_temp = some 250) :=
  ⟨by decide,
   zigbee_turn_on_overwrites_cached_fields ⟨9, some true, some 120, some 300⟩ []
     none (some 250) (by decide)⟩
